import Mathlib

/-
Shallow embedding of the timer engine of the focusmode repository
(src/pomodoro.py, class PomodoroTimer).

The engine state consists of the configured durations (seconds), the cycle
configuration and counter, the on-break flag, the running flag and the
remaining time.  Threading, audio playback and the transition callback are
external effects with no influence on these fields; they are therefore not
part of the state.  Python integers in this program are only ever set to
non-negative values (slider minutes times 60, cycle counts, increments), so
the fields are modelled as Nat.

transition() evaluates current_cycle % cycles_before_long_break; Python
raises ZeroDivisionError when cycles_before_long_break is 0, so transition
is modelled as an Option-valued function that is none exactly there.
-/

structure PomodoroTimer where
  work_time : Nat
  short_break : Nat
  long_break : Nat
  cycles_before_long_break : Nat
  current_cycle : Nat
  on_break : Bool
  is_running : Bool
  time_left : Nat
deriving Repr, DecidableEq

namespace PomodoroTimer

/-- The state built by the constructor of PomodoroTimer: 25 minutes work,
5 minutes short break, 15 minutes long break, 4 cycles, cycle counter 1,
not on break, not running, time_left equal to the work time. -/
def initial_state : PomodoroTimer :=
  { work_time := 25 * 60
    short_break := 5 * 60
    long_break := 15 * 60
    cycles_before_long_break := 4
    current_cycle := 1
    on_break := false
    is_running := false
    time_left := 25 * 60 }

/-- Property is_default: time_left equals work_time and the timer is not
running.  The source reads
return self.time_left == self.work_time and not self.is_running -/
def is_default (s : PomodoroTimer) : Bool :=
  s.time_left == s.work_time && !s.is_running

/-- start(): if not running, set is_running and spawn the countdown thread
(the spawn is an external effect); if already running, do nothing. -/
def start (s : PomodoroTimer) : PomodoroTimer :=
  if s.is_running then s else { s with is_running := true }

/-- stop(): clear is_running and join the countdown thread (the join is an
external effect that does not touch the state fields). -/
def stop (s : PomodoroTimer) : PomodoroTimer :=
  { s with is_running := false }

/-- transition(): from a break, return to work, restore the work time and
increment the cycle counter; from work, move to a break whose length is the
long break when current_cycle % cycles_before_long_break == 0 and
current_cycle != 0, else the short break.  Afterwards start() is called
unconditionally.  When not on break and cycles_before_long_break = 0 the
Python modulo raises, modelled as none. -/
def transition (s : PomodoroTimer) : Option PomodoroTimer :=
  if s.on_break then
    some (start { s with
      time_left := s.work_time
      on_break := false
      current_cycle := s.current_cycle + 1 })
  else if s.cycles_before_long_break = 0 then
    none
  else
    some (start { s with
      time_left :=
        if s.current_cycle % s.cycles_before_long_break = 0 ∧ s.current_cycle ≠ 0
        then s.long_break else s.short_break
      on_break := true })

/-- reset(): stop, then restore time_left for the current phase; on a break
the source compares current_cycle >= cycles_before_long_break to pick the
long break, otherwise the short break; off break it restores work_time. -/
def reset (s : PomodoroTimer) : PomodoroTimer :=
  let t := stop s
  if t.on_break then
    if t.cycles_before_long_break ≤ t.current_cycle then
      { t with time_left := t.long_break }
    else
      { t with time_left := t.short_break }
  else
    { t with time_left := t.work_time }

/-- update_work_time(minutes): store minutes * 60 as the work time, then
reset when the timer is not running. -/
def update_work_time (s : PomodoroTimer) (minutes : Nat) : PomodoroTimer :=
  let t := { s with work_time := minutes * 60 }
  if t.is_running then t else reset t

/-- update_short_break(minutes): store minutes * 60 as the short break. -/
def update_short_break (s : PomodoroTimer) (minutes : Nat) : PomodoroTimer :=
  { s with short_break := minutes * 60 }

/-- update_long_break(minutes): store minutes * 60 as the long break. -/
def update_long_break (s : PomodoroTimer) (minutes : Nat) : PomodoroTimer :=
  { s with long_break := minutes * 60 }

/-- update_cycles_before_long_break(cycles): store the given count. -/
def update_cycles_before_long_break (s : PomodoroTimer) (cycles : Nat) : PomodoroTimer :=
  { s with cycles_before_long_break := cycles }

/-- One iteration of the run_timer loop body: while running, time_left is
overwritten with round(end_time - now).  The wall clock only moves forward,
so the written value t satisfies t ≤ the time_left the loop started from;
that bound is a hypothesis of the theorems using run_tick. -/
def run_tick (s : PomodoroTimer) (t : Nat) : PomodoroTimer :=
  if s.is_running then { s with time_left := t } else s

/-- The configured duration of the current phase: work_time off break; on a
break, the long break when current_cycle >= cycles_before_long_break holds
(the selection rule reset() uses), else the short break. -/
def durationOf (s : PomodoroTimer) : Nat :=
  if s.on_break then
    if s.cycles_before_long_break ≤ s.current_cycle then s.long_break
    else s.short_break
  else s.work_time

/-- The spec invariant on remaining time: time_left lies in
[0, durationOf phase]; the lower bound is inherent to Nat. -/
def timeLeftInv (s : PomodoroTimer) : Prop :=
  s.time_left ≤ durationOf s

instance (s : PomodoroTimer) : Decidable (timeLeftInv s) :=
  inferInstanceAs (Decidable (s.time_left ≤ durationOf s))

/-- A break state reached from the initial state by one transition: on the
short break, cycle counter still 1, running. -/
def after_first_transition : PomodoroTimer :=
  { work_time := 25 * 60
    short_break := 5 * 60
    long_break := 15 * 60
    cycles_before_long_break := 4
    current_cycle := 1
    on_break := true
    is_running := true
    time_left := 5 * 60 }

/-- A stopped break state with cycle counter 5 and the default
configuration: 5 % 4 is nonzero yet 5 >= 4 holds, separating the two
break-selection rules. -/
def break_cycle5 : PomodoroTimer :=
  { work_time := 25 * 60
    short_break := 5 * 60
    long_break := 15 * 60
    cycles_before_long_break := 4
    current_cycle := 5
    on_break := true
    is_running := false
    time_left := 5 * 60 }

/-- A stopped break state whose time_left happens to equal the configured
work time. -/
def break_with_work_time_left : PomodoroTimer :=
  { work_time := 25 * 60
    short_break := 25 * 60
    long_break := 15 * 60
    cycles_before_long_break := 4
    current_cycle := 1
    on_break := true
    is_running := false
    time_left := 25 * 60 }

/-- The state reached from after_first_transition by one more transition:
back to work, cycle counter 2, running. -/
def after_second_transition : PomodoroTimer :=
  { work_time := 25 * 60
    short_break := 5 * 60
    long_break := 15 * 60
    cycles_before_long_break := 4
    current_cycle := 2
    on_break := false
    is_running := true
    time_left := 25 * 60 }

theorem start_on_break (s : PomodoroTimer) : (start s).on_break = s.on_break := by
  unfold start; split <;> rfl

theorem start_time_left (s : PomodoroTimer) : (start s).time_left = s.time_left := by
  unfold start; split <;> rfl

theorem start_current_cycle (s : PomodoroTimer) :
    (start s).current_cycle = s.current_cycle := by
  unfold start; split <;> rfl

theorem start_is_running (s : PomodoroTimer) : (start s).is_running = true := by
  unfold start; split <;> simp_all

theorem transition_of_break (s : PomodoroTimer) (h : s.on_break = true) :
    transition s = some (start { s with
      time_left := s.work_time
      on_break := false
      current_cycle := s.current_cycle + 1 }) := by
  unfold transition; rw [h]; rfl

theorem transition_of_work (s : PomodoroTimer) (h : s.on_break = false)
    (h0 : s.cycles_before_long_break ≠ 0) :
    transition s = some (start { s with
      time_left :=
        if s.current_cycle % s.cycles_before_long_break = 0 ∧ s.current_cycle ≠ 0
        then s.long_break else s.short_break
      on_break := true }) := by
  unfold transition; rw [h]; simp [h0]

theorem transition_of_work_zero (s : PomodoroTimer) (h : s.on_break = false)
    (h0 : s.cycles_before_long_break = 0) : transition s = none := by
  unfold transition; rw [h]; simp [h0]

theorem durationOf_start (s : PomodoroTimer) :
    durationOf (start s) = durationOf s := by
  unfold start; split <;> rfl

theorem timeLeftInv_reset (s : PomodoroTimer) : timeLeftInv (reset s) := by
  unfold timeLeftInv reset stop durationOf
  by_cases hb : s.on_break <;>
    by_cases hc : s.cycles_before_long_break ≤ s.current_cycle <;>
      simp [hb, hc]

/-- C1: from the Work phase (with the positive cycle counter of the data
model), transition selects the long break exactly when
current_cycle % cycles_before_long_break = 0, setting time_left to the long
break in that case and to the short break otherwise. -/
theorem C1_work_to_break_selection (s s' : PomodoroTimer)
    (hb : s.on_break = false) (hc : 1 ≤ s.current_cycle)
    (ht : transition s = some s') :
    s'.time_left =
      (if s.current_cycle % s.cycles_before_long_break = 0
       then s.long_break else s.short_break) := by
  have hcz : s.current_cycle ≠ 0 := Nat.one_le_iff_ne_zero.mp hc
  by_cases h0 : s.cycles_before_long_break = 0
  · rw [transition_of_work_zero s hb h0] at ht
    exact absurd ht (by simp)
  · rw [transition_of_work s hb h0] at ht
    have hs : s' = start { s with
        time_left :=
          if s.current_cycle % s.cycles_before_long_break = 0 ∧ s.current_cycle ≠ 0
          then s.long_break else s.short_break
        on_break := true } := (Option.some.injEq _ _).mp ht.symm
    rw [hs, start_time_left]
    simp [hcz]

/-- Witness for C1: at the initial state (cycle 1, 4 cycles before a long
break) the transition picks the short break. -/
theorem C1_witness :
    initial_state.on_break = false ∧
    1 ≤ initial_state.current_cycle ∧
    transition initial_state = some after_first_transition ∧
    after_first_transition.time_left =
      (if initial_state.current_cycle % initial_state.cycles_before_long_break = 0
       then initial_state.long_break else initial_state.short_break) :=
  ⟨rfl, by decide, by decide,
    C1_work_to_break_selection initial_state after_first_transition rfl
      (by decide) (by decide)⟩

/-- C4: every successful transition negates the on-break flag, so phases
alternate strictly between Work and a break type. -/
theorem C4_phase_alternation (s s' : PomodoroTimer)
    (ht : transition s = some s') : s'.on_break = !s.on_break := by
  by_cases hb : s.on_break
  · rw [transition_of_break s hb] at ht
    have hs := (Option.some.injEq _ _).mp ht.symm
    rw [hs, start_on_break, hb]
    rfl
  · have hb' : s.on_break = false := by simp [hb]
    by_cases h0 : s.cycles_before_long_break = 0
    · rw [transition_of_work_zero s hb' h0] at ht
      exact absurd ht (by simp)
    · rw [transition_of_work s hb' h0] at ht
      have hs := (Option.some.injEq _ _).mp ht.symm
      rw [hs, start_on_break, hb']
      rfl

/-- Witness for C4: the first transition of the initial state moves from
Work onto a break. -/
theorem C4_witness :
    transition initial_state = some after_first_transition ∧
    after_first_transition.on_break = !initial_state.on_break :=
  ⟨by decide,
    C4_phase_alternation initial_state after_first_transition (by decide)⟩

/-- C5: a successful transition increments current_cycle by exactly 1 when
it starts from a break and leaves current_cycle unchanged when it starts
from Work. -/
theorem C5_cycle_increment (s s' : PomodoroTimer)
    (ht : transition s = some s') :
    (s.on_break = true → s'.current_cycle = s.current_cycle + 1) ∧
    (s.on_break = false → s'.current_cycle = s.current_cycle) := by
  constructor
  · intro hb
    rw [transition_of_break s hb] at ht
    have hs := (Option.some.injEq _ _).mp ht.symm
    rw [hs, start_current_cycle]
  · intro hb
    by_cases h0 : s.cycles_before_long_break = 0
    · rw [transition_of_work_zero s hb h0] at ht
      exact absurd ht (by simp)
    · rw [transition_of_work s hb h0] at ht
      have hs := (Option.some.injEq _ _).mp ht.symm
      rw [hs, start_current_cycle]

/-- Witness for C5: transitioning out of the first break raises the cycle
counter from 1 to 2. -/
theorem C5_witness :
    transition after_first_transition = some after_second_transition ∧
    after_first_transition.on_break = true ∧
    after_second_transition.current_cycle =
      after_first_transition.current_cycle + 1 :=
  ⟨by decide, rfl,
    (C5_cycle_increment after_first_transition after_second_transition
      (by decide)).1 rfl⟩

/-- C9: stop clears is_running, changes no other field, is idempotent, and
is the identity on a state that is already stopped. -/
theorem C9_stop_frame (s : PomodoroTimer) :
    (stop s).is_running = false ∧
    (stop s).time_left = s.time_left ∧
    (stop s).on_break = s.on_break ∧
    (stop s).current_cycle = s.current_cycle ∧
    stop (stop s) = stop s ∧
    (s.is_running = false → stop s = s) := by
  refine ⟨rfl, rfl, rfl, rfl, rfl, ?_⟩
  intro h
  cases s
  simp_all [stop]

/-- Witness for C9: stopping the already stopped initial state is a no-op. -/
theorem C9_witness :
    initial_state.is_running = false ∧ stop initial_state = initial_state :=
  ⟨rfl, (C9_stop_frame initial_state).2.2.2.2.2 rfl⟩

/-- C10: after every successful transition the engine is running, because
transition invokes start unconditionally. -/
theorem C10_transition_starts (s s' : PomodoroTimer)
    (ht : transition s = some s') : s'.is_running = true := by
  by_cases hb : s.on_break
  · rw [transition_of_break s hb] at ht
    have hs := (Option.some.injEq _ _).mp ht.symm
    rw [hs, start_is_running]
  · have hb' : s.on_break = false := by simp [hb]
    by_cases h0 : s.cycles_before_long_break = 0
    · rw [transition_of_work_zero s hb' h0] at ht
      exact absurd ht (by simp)
    · rw [transition_of_work s hb' h0] at ht
      have hs := (Option.some.injEq _ _).mp ht.symm
      rw [hs, start_is_running]

/-- Witness for C10: the first transition of the stopped initial state
leaves the engine running. -/
theorem C10_witness :
    transition initial_state = some after_first_transition ∧
    after_first_transition.is_running = true :=
  ⟨by decide,
    C10_transition_starts initial_state after_first_transition (by decide)⟩

/-- C2 counterexample: at a stopped break state with cycle counter 5 and 4
cycles before a long break, reset restores the long break (5 >= 4) although
the modulo rule of transition (5 % 4 = 1) picks the short break, so reset
does not use the cycle-modulo rule the claim states. -/
theorem C2_counterexample :
    ¬ ((reset break_cycle5).time_left =
        (if break_cycle5.current_cycle % break_cycle5.cycles_before_long_break = 0
         then break_cycle5.long_break else break_cycle5.short_break)) := by
  decide

/-- C2 amended: reset stops the countdown, keeps phase and cycle counter,
and restores time_left to the work duration in Work and on a break to the
long break exactly when current_cycle >= cycles_before_long_break, else the
short break. -/
theorem C2_reset_behaviour (s : PomodoroTimer) :
    (reset s).is_running = false ∧
    (reset s).on_break = s.on_break ∧
    (reset s).current_cycle = s.current_cycle ∧
    (reset s).time_left =
      (if s.on_break then
        (if s.cycles_before_long_break ≤ s.current_cycle
         then s.long_break else s.short_break)
       else s.work_time) := by
  unfold reset stop
  by_cases hb : s.on_break <;>
    by_cases hc : s.cycles_before_long_break ≤ s.current_cycle <;>
      simp [hb, hc]

/-- C3 counterexample: a stopped break state whose time_left equals the
configured work time is reported as default, although the claim requires
is_default to be false in any break phase. -/
theorem C3_counterexample :
    break_with_work_time_left.on_break = true ∧
    break_with_work_time_left.is_default = true := by
  decide

/-- C3 amended: is_default is true exactly when time_left equals the work
duration and the engine is not running; the phase is not consulted. -/
theorem C3_is_default_characterisation (s : PomodoroTimer) :
    s.is_default = true ↔ (s.time_left = s.work_time ∧ s.is_running = false) := by
  simp [is_default, Bool.and_eq_true, Bool.not_eq_true']

/-- C7 counterexample: update_short_break accepts 0 and silently stores a
zero short-break duration, so no rejection or clamping takes place. -/
theorem C7_counterexample :
    (update_short_break initial_state 0).short_break = 0 := by
  decide

/-- C7 amended: the configuration setters apply their input without any
validation: the duration setters store minutes * 60 and the cycle setter
stores the given count, whatever the input, so an input of 0 leaves a zero
duration or cycle count. -/
theorem C7_setters_unvalidated (s : PomodoroTimer) (m : Nat) :
    (update_work_time s m).work_time = m * 60 ∧
    (update_short_break s m).short_break = m * 60 ∧
    (update_long_break s m).long_break = m * 60 ∧
    (update_cycles_before_long_break s m).cycles_before_long_break = m := by
  refine ⟨?_, rfl, rfl, rfl⟩
  unfold update_work_time reset stop
  by_cases hr : s.is_running
  · simp [hr]
  · simp only [hr, Bool.false_eq_true, if_false]
    split
    · split <;> rfl
    · rfl

/-- C8 counterexample: in a stopped break state (reached from the initial
state by one transition and a stop), updateWorkDuration 25 followed by
reset leaves time_left at the short-break duration 300, not 1500. -/
theorem C8_counterexample :
    (stop after_first_transition).is_running = false ∧
    ¬ ((reset (update_work_time (stop after_first_transition) 25)).time_left
        = 1500) := by
  decide

/-- C8 amended: from any stopped state in the Work phase, updateWorkDuration
25 followed by reset yields time_left = 1500. -/
theorem C8_update_reset_round_trip (s : PomodoroTimer)
    (hr : s.is_running = false) (hb : s.on_break = false) :
    (reset (update_work_time s 25)).time_left = 1500 := by
  unfold update_work_time reset stop
  simp [hr, hb]

/-- Witness for C8: the round trip at the initial state. -/
theorem C8_witness :
    initial_state.is_running = false ∧
    initial_state.on_break = false ∧
    (reset (update_work_time initial_state 25)).time_left = 1500 :=
  ⟨rfl, rfl, C8_update_reset_round_trip initial_state rfl rfl⟩

/-- C6 counterexample: the break state reached from the initial state by one
transition satisfies the time-left invariant, yet update_short_break 1
shrinks the short break to 60 while time_left stays 300, so the setter does
not preserve the invariant. -/
theorem C6_counterexample :
    transition initial_state = some after_first_transition ∧
    timeLeftInv after_first_transition ∧
    ¬ timeLeftInv (update_short_break after_first_transition 1) := by
  decide

/-- C6 amended: with the break duration of durationOf chosen by the rule
current_cycle >= cycles_before_long_break (the rule reset uses) and the
short break no longer than the long break, the invariant
time_left ≤ durationOf phase is preserved by stop, start and a countdown
tick, established by reset and by every successful transition, and
established by update_work_time while the engine is not running; the
break-duration and cycle-count setters need not preserve it. -/
theorem C6_time_left_invariant (s s' : PomodoroTimer) (t m : Nat)
    (hsl : s.short_break ≤ s.long_break)
    (hinv : timeLeftInv s)
    (htick : t ≤ s.time_left)
    (ht : transition s = some s') :
    timeLeftInv (stop s) ∧
    timeLeftInv (start s) ∧
    timeLeftInv (run_tick s t) ∧
    timeLeftInv (reset s) ∧
    timeLeftInv s' ∧
    (s.is_running = false → timeLeftInv (update_work_time s m)) := by
  refine ⟨?_, ?_, ?_, timeLeftInv_reset s, ?_, ?_⟩
  · exact hinv
  · unfold start
    split
    · exact hinv
    · exact hinv
  · unfold run_tick
    split
    · exact Nat.le_trans htick hinv
    · exact hinv
  · by_cases hb : s.on_break
    · rw [transition_of_break s hb] at ht
      have hs := (Option.some.injEq _ _).mp ht.symm
      subst hs
      unfold timeLeftInv
      rw [start_time_left, durationOf_start]
      simp [durationOf]
    · have hb' : s.on_break = false := by simp [hb]
      by_cases h0 : s.cycles_before_long_break = 0
      · rw [transition_of_work_zero s hb' h0] at ht
        exact absurd ht (by simp)
      · rw [transition_of_work s hb' h0] at ht
        have hs := (Option.some.injEq _ _).mp ht.symm
        subst hs
        unfold timeLeftInv
        rw [start_time_left, durationOf_start]
        by_cases hge : s.cycles_before_long_break ≤ s.current_cycle
        · simp only [durationOf, hge, if_true]
          split <;> simp [hsl]
        · have hlt : s.current_cycle < s.cycles_before_long_break :=
            Nat.lt_of_not_le hge
          have hmod : ¬ (s.current_cycle % s.cycles_before_long_break = 0
              ∧ s.current_cycle ≠ 0) := by
            rw [Nat.mod_eq_of_lt hlt]
            intro hand
            exact hand.2 hand.1
          simp [durationOf, hge, hmod]
  · intro hr
    unfold update_work_time
    have hr' : ({ s with work_time := m * 60 } : PomodoroTimer).is_running
        = false := hr
    rw [hr']
    simp only [Bool.false_eq_true, if_false]
    exact timeLeftInv_reset _

/-- Witness for C6: every hypothesis of the amended invariant theorem holds
at the initial state with tick value 100 and a 10 minute work update. -/
theorem C6_witness :
    timeLeftInv (stop initial_state) ∧
    timeLeftInv (start initial_state) ∧
    timeLeftInv (run_tick initial_state 100) ∧
    timeLeftInv (reset initial_state) ∧
    timeLeftInv after_first_transition ∧
    timeLeftInv (update_work_time initial_state 10) := by
  have h := C6_time_left_invariant initial_state after_first_transition 100 10
    (by decide) (by decide) (by decide) (by decide)
  exact ⟨h.1, h.2.1, h.2.2.1, h.2.2.2.1, h.2.2.2.2.1, h.2.2.2.2.2 (by decide)⟩

end PomodoroTimer
